import Mathlib

/-!
Shallow embedding of `src/FHOutdoorLighting.cpp` (the front-of-house LED
lighting controller).  Machine integers are modelled by `Nat`/`Int`; the
`uint64_t` millisecond-clock subtraction is modelled exactly by `wrapSub`
(subtraction modulo `2 ^ 64`).  `float` color and intensity arithmetic is
modelled over `ℚ`; the cast `uint8_t(float)` is modelled by `quantize`
(floor, clamp at zero, reduce mod 256).  Hardware side effects (pixel
writes, relay writes, timer registration, the `leds.show()` flush) are
reified as a list of `Action`s returned next to the successor state.
-/

namespace FH

/-! ### Constants (the anonymous `enum` at the top of the file, lines 55-83) -/

def ePanelCount : Nat := 10
def eLEDsPerPanel : Nat := 38
def eLEDPanelsCenterToRight : Nat := 4
def eLEDPanelsCenterToLeft : Nat := 6
def eLEDsPerStrip : Nat := eLEDPanelsCenterToLeft * eLEDsPerPanel
def eLEDCount : Nat := ePanelCount * eLEDsPerPanel
def eLEDStripCenterToRight : Nat := 3
def eLEDStripCenterToLeft : Nat := 0
def eToggleCountResetMS : Nat := 1000
def ePushCount_ToggleState : Nat := 1
def ePushCount_MotionTrip : Nat := 2
def ePushCount_CyclePatterns : Nat := 3
def ePushCount_TestPattern : Nat := 4
def eCyclePatternTime : Nat := 4000
def eTransformerWarmUpSecs : Nat := 2
def eLEDUpdateMS : Nat := 100

/-- The `#define MHardwarePresent 0` (line 53): the build used for testing
without LED strips or sensors; `leds.begin()`/`leds.show()` are compiled
out.  The functions below take the flag as an argument `hw` mirroring the
`#if MHardwarePresent` blocks; this constant records the value in the
committed source. -/
def MHardwarePresentFlag : Bool := false

def cTestPatternPixelsPerSec : ℚ := 100

/-! ### LED index map (constructor, lines 466-476)

`gLEDMap` is filled once: the left wiring segment (strip
`eLEDStripCenterToLeft`) is reversed (logical 0 is the physically last
LED of that segment), the right segment is the identity offset by strip
`eLEDStripCenterToRight`'s position in the wire run. -/

def gLEDMap (i : Nat) : Nat :=
  if i < eLEDPanelsCenterToLeft * eLEDsPerPanel then
    eLEDStripCenterToLeft * eLEDsPerStrip + eLEDPanelsCenterToLeft * eLEDsPerPanel - i - 1
  else
    eLEDStripCenterToRight * eLEDsPerStrip + (i - eLEDPanelsCenterToLeft * eLEDsPerPanel)

/-! ### Date ranges and patterns (lines 117-448) -/

/-- The `SDateRange` (lines 118-123): `year = -1` means any year. -/
structure SDateRange where
  year : Int
  firstMonth : Nat
  firstDay : Nat
  lastMonth : Nat
  lastDay : Nat
deriving DecidableEq

/-- The six concrete `CBasePattern` subclasses, in the order their static
instances register themselves into `gPatternList` (file order of the
static objects, lines 201-448). -/
inductive PatternId where
  | xmas
  | valintine
  | july4
  | holloween
  | stPatty
  | easter
deriving DecidableEq

def gXMasDateRange : List SDateRange := [⟨-1, 12, 1, 12, 26⟩]
def gValintineDateRange : List SDateRange := [⟨-1, 2, 14, 2, 14⟩]
def gJuly4DateRange : List SDateRange := [⟨-1, 7, 3, 7, 4⟩]
def gHolloweenDateRange : List SDateRange := [⟨-1, 10, 30, 10, 31⟩]
def gStPattyDateRange : List SDateRange := [⟨-1, 3, 16, 3, 17⟩]

/-- The `gEasterDateRange` (lines 344-380): Easter weekend per year 2016-2049. -/
def gEasterDateRange : List SDateRange :=
  [⟨2016, 3, 27, 3, 28⟩, ⟨2017, 4, 15, 4, 16⟩, ⟨2018, 3, 31, 4, 1⟩,
   ⟨2019, 4, 20, 4, 21⟩, ⟨2020, 4, 11, 4, 12⟩, ⟨2021, 4, 3, 4, 4⟩,
   ⟨2022, 4, 16, 4, 17⟩, ⟨2023, 4, 8, 4, 9⟩, ⟨2024, 3, 30, 3, 31⟩,
   ⟨2025, 4, 19, 4, 20⟩, ⟨2026, 4, 4, 4, 5⟩, ⟨2027, 3, 27, 3, 28⟩,
   ⟨2028, 4, 15, 4, 16⟩, ⟨2029, 3, 31, 4, 1⟩, ⟨2030, 4, 20, 4, 21⟩,
   ⟨2031, 4, 12, 4, 13⟩, ⟨2032, 3, 27, 3, 28⟩, ⟨2033, 4, 16, 4, 17⟩,
   ⟨2034, 4, 8, 4, 9⟩, ⟨2035, 3, 24, 3, 25⟩, ⟨2036, 4, 12, 4, 13⟩,
   ⟨2037, 4, 4, 4, 5⟩, ⟨2038, 4, 24, 4, 25⟩, ⟨2039, 4, 9, 4, 10⟩,
   ⟨2040, 3, 31, 4, 1⟩, ⟨2041, 4, 20, 4, 21⟩, ⟨2042, 4, 5, 4, 6⟩,
   ⟨2043, 3, 28, 3, 29⟩, ⟨2044, 4, 16, 4, 17⟩, ⟨2045, 4, 8, 4, 9⟩,
   ⟨2046, 3, 24, 3, 25⟩, ⟨2047, 4, 13, 4, 14⟩, ⟨2048, 4, 4, 4, 5⟩,
   ⟨2049, 4, 17, 4, 18⟩]

/-- The `dateRangeCount`/`dateRangeArray` as set by each pattern constructor. -/
def dateRangeArray : PatternId → List SDateRange
  | .xmas => gXMasDateRange
  | .valintine => gValintineDateRange
  | .july4 => gJuly4DateRange
  | .holloween => gHolloweenDateRange
  | .stPatty => gStPattyDateRange
  | .easter => gEasterDateRange

/-- The `gPatternList` in registration order (`CBasePattern::CBasePattern`). -/
def gPatternList : List PatternId :=
  [.xmas, .valintine, .july4, .holloween, .stPatty, .easter]

/-- The per-range condition of `FindBasePattern` (lines 1260-1262),
verbatim: year is any or equal, and the month and the day are each
compared independently against the bounds. -/
def dateRangeMatches (r : SDateRange) (year : Int) (month day : Nat) : Bool :=
  (r.year == -1 || r.year == year)
    && (decide (r.firstMonth ≤ month) && decide (r.firstDay ≤ day))
    && (decide (month ≤ r.lastMonth) && decide (day ≤ r.lastDay))

/-- The `COutdoorLightingModule::FindBasePattern` (lines 1245-1269): first
pattern (in registration order) with a matching range wins; `none` when
no range matches. -/
def findBasePattern (year : Int) (month day : Nat) : Option PatternId :=
  gPatternList.find? (fun p => (dateRangeArray p).any (fun r => dateRangeMatches r year month day))

/-- Modelled from the spec (for comparison with `dateRangeMatches`):
lexicographic order on composite (month, day) pairs. -/
def monthDayLE (m1 d1 m2 d2 : Nat) : Bool :=
  decide (m1 < m2) || (decide (m1 = m2) && decide (d1 ≤ d2))

/-- Modelled from the spec (for comparison with `dateRangeMatches`): a
range matches when the year is any or equal AND (month, day) lies in the
inclusive composite interval [(firstMonth, firstDay), (lastMonth,
lastDay)] under lexicographic (month, day) order. -/
def dateRangeMatchesLex (r : SDateRange) (year : Int) (month day : Nat) : Bool :=
  (r.year == -1 || r.year == year)
    && monthDayLE r.firstMonth r.firstDay month day
    && monthDayLE month day r.lastMonth r.lastDay

/-! ### Pixels, patterns' Draw methods, settings -/

/-- The `SFloatPixel` (lines 112-115); `float` modelled over `ℚ`. -/
structure SFloatPixel where
  r : ℚ
  g : ℚ
  b : ℚ
deriving DecidableEq

/-- The `Draw` methods of the six patterns, per logical pixel index.
Each fills the whole buffer from the pixel's panel index; `& 1` on a
non-negative int is `% 2`. -/
def drawPixel : PatternId → Nat → SFloatPixel
  | .xmas, itr => if (itr / eLEDsPerPanel) % 2 = 0 then ⟨1, 0, 0⟩ else ⟨0, 1, 0⟩
  | .valintine, _ => ⟨1, 0, 0⟩
  | .july4, itr =>
    match (itr / eLEDsPerPanel) % 3 with
    | 0 => ⟨1, 0, 0⟩
    | 1 => ⟨1, 1, 1⟩
    | _ => ⟨0, 0, 1⟩
  | .holloween, itr =>
    if (itr / eLEDsPerPanel) % 2 = 0 then ⟨1, 65/100, 0⟩ else ⟨1/2, 0, 1/2⟩
  | .stPatty, _ => ⟨0, 1, 0⟩
  | .easter, itr =>
    match (itr / eLEDsPerPanel) % 7 with
    | 0 => ⟨1, 1, 0⟩
    | 1 => ⟨1/2, 0, 1/2⟩
    | 2 => ⟨1, 0, 0⟩
    | 3 => ⟨0, 1, 0⟩
    | 4 => ⟨0, 0, 1⟩
    | 5 => ⟨1, 41/100, 71/100⟩
    | _ => ⟨1, 65/100, 0⟩

/-- The `SSettings` (lines 125-137); the two timeout minutes are stored as
C `int` config values, always non-negative, modelled as `Nat`. -/
structure SSettings where
  defaultColor : SFloatPixel
  defaultIntensity : ℚ
  activeIntensity : ℚ
  minLux : ℚ
  maxLux : ℚ
  triggerLux : ℚ
  lateNightStartHour : Int
  lateNightStartMin : Int
  motionTripTimeoutMins : Nat
  lateNightTimeoutMins : Nat
deriving DecidableEq

/-! ### Controller state and reified hardware actions -/

inductive ViewMode where
  | normal
  | cyclePatterns
  | testPattern
deriving DecidableEq

inductive TimeOfDay where
  | day
  | night
  | lateNight
deriving DecidableEq

/-- The mutable members of `COutdoorLightingModule` (lines 1323-1340)
that the modelled methods read or write.  `relayPin` is the level last
written to `eTransformRelayPin`.  `frameBuffer` is omitted: every branch
that reads it fully overwrites it in the same tick, so the emitted
`ledSet` actions are computed directly. -/
structure OLState where
  viewMode : ViewMode
  timeOfDay : TimeOfDay
  toggleState : Bool
  motionSensorTrip : Bool
  curTransformerState : Bool
  curTransformerTransitionState : Bool
  relayPin : Bool
  luxTriggerState : Bool
  basePattern : Option PatternId
  toggleCount : Nat
  toggleLastTimeMS : Nat
  cyclePatternTimeMS : Nat
  cyclePatternCount : Nat
  testPatternValue : ℚ
  settings : SSettings
deriving DecidableEq

def nmXfmrWarmup : String := "XfmrWarmup"
def nmLateNight : String := "LateNight"
def nmMotionTripCD : String := "MotionTripCD"

/-- Observable hardware/collaborator effects, in program order:
`leds.setPixel` (physical index), `leds.show`, `digitalWriteFast` on the
relay pin, `gRealTime->RegisterEvent` (microseconds), and
`gRealTime->CancelEvent`. -/
inductive Action where
  | ledSet (physIndex : Nat) (r g b : Nat)
  | ledShow
  | relayWrite (state : Bool)
  | registerEvent (nm : String) (usec : Nat)
  | cancelEvent (nm : String)
deriving DecidableEq

/-- The `SetRoofPixel` (lines 842-850): routes a logical index through `gLEDMap`. -/
def setRoofPixelAction (i r g b : Nat) : Action := .ledSet (gLEDMap i) r g b

/-- The `uint64_t` subtraction `a - b` (the `gCurLocalMS - ...MS` elapsed-time
computations), exact modulo `2 ^ 64`. -/
def wrapSub (a b : Nat) : Nat := (a % 2 ^ 64 + 2 ^ 64 - b % 2 ^ 64) % 2 ^ 64

/-! ### Transformer sequencer (lines 1271-1319) -/

/-- The all-off pixel writes of the On-to-Off branch (lines 1297-1300). -/
def blankActions : List Action :=
  (List.range eLEDCount).map (fun itr => setRoofPixelAction itr 0 0 0)

/-- The `COutdoorLightingModule::SetTransformerState` (lines 1271-1309).
`hw` is the `MHardwarePresent` build flag guarding `leds.show()`. -/
def setTransformerState (hw : Bool) (inState : Bool) (s : OLState) : OLState × List Action :=
  if s.curTransformerTransitionState = inState then (s, [])
  else if inState then
    ({ s with curTransformerTransitionState := true, relayPin := true },
     [.relayWrite true, .registerEvent nmXfmrWarmup (eTransformerWarmUpSecs * 1000000)])
  else
    ({ s with curTransformerTransitionState := false, curTransformerState := false },
     blankActions ++ (if hw then [.ledShow] else [])
       ++ [.registerEvent nmXfmrWarmup (eLEDUpdateMS * 1000)])

/-- The `COutdoorLightingModule::TransformerTransitionEvent` (lines 1311-1319):
the handler of the `XfmrWarmup` timer. -/
def transformerTransitionEvent (s : OLState) : OLState × List Action :=
  ({ s with curTransformerState := s.curTransformerTransitionState,
            relayPin := s.curTransformerTransitionState },
   [.relayWrite s.curTransformerTransitionState])

/-! ### Sensor and button callbacks -/

inductive EPinEvent where
  | activated
  | deactivated
deriving DecidableEq

/-- The `COutdoorLightingModule::MotionSensorTrigger` (lines 933-959). -/
def motionSensorTrigger (ev : EPinEvent) (s : OLState) : OLState × List Action :=
  if ev = .activated then ({ s with motionSensorTrip := true }, [])
  else if s.motionSensorTrip then
    if s.timeOfDay ≠ .day then
      (s, [.registerEvent nmMotionTripCD (s.settings.motionTripTimeoutMins * 60 * 1000000)])
    else
      ({ s with motionSensorTrip := false }, [])
  else (s, [])

/-- The `COutdoorLightingModule::ButtonPush` (lines 919-931): `now` is
`gCurLocalMS` at the callback. -/
def buttonPush (now : Nat) (ev : EPinEvent) (s : OLState) : OLState :=
  if ev = .activated then
    { s with toggleLastTimeMS := now, toggleCount := s.toggleCount + 1 }
  else s

/-! ### The Update tick (lines 659-840) -/

/-- External inputs read during one `Update` call: the `gCurLocalMS`
clock, `inDeltaTimeUS`, the calendar date read by `FindBasePattern`, the
normalized ambient brightness from the luminosity sensor, and the
`MHardwarePresent` build flag. -/
structure TickEnv where
  now : Nat
  deltaUS : Nat
  year : Int
  month : Nat
  day : Nat
  ambient : ℚ
  hw : Bool
deriving DecidableEq

/-- First half of `Update` (lines 663-724): the push-button gesture
decoder and the action switch.  Returns the new state, the emitted
actions, and `some n` when the toggle count `n` timed out and was acted
upon (the `switch` executed), else `none`. -/
def gestureAction (env : TickEnv) (s0 : OLState) : OLState × List Action × Option Nat :=
  if eToggleCountResetMS ≤ wrapSub env.now s0.toggleLastTimeMS ∧ 0 < s0.toggleCount then
    let n := s0.toggleCount
    let s := { s0 with motionSensorTrip := false }
    let r : OLState × List Action :=
      if n = ePushCount_ToggleState then
        let r1 : OLState × List Action :=
          if s.viewMode = .normal then
            let s2 := { s with toggleState := !s.toggleState }
            if s2.timeOfDay = .day then
              setTransformerState env.hw s2.toggleState s2
            else if s2.timeOfDay = .lateNight then
              if s2.toggleState then
                (s2, [.registerEvent nmLateNight (s2.settings.lateNightTimeoutMins * 60 * 1000000)])
              else
                (s2, [.cancelEvent nmLateNight])
            else (s2, [])
          else ({ s with viewMode := .normal }, [])
        ({ r1.1 with basePattern := findBasePattern env.year env.month env.day }, r1.2)
      else if n = ePushCount_MotionTrip then
        let r1 := motionSensorTrigger .activated s
        let r2 := motionSensorTrigger .deactivated r1.1
        ({ r2.1 with toggleState := true }, r1.2 ++ r2.2)
      else if n = ePushCount_CyclePatterns then
        setTransformerState env.hw true { s with viewMode := .cyclePatterns }
      else if n = ePushCount_TestPattern then
        setTransformerState env.hw true { s with viewMode := .testPattern }
      else (s, [])
    ({ r.1 with toggleCount := 0 }, r.2, some n)
  else (s0, [], none)

/-- The `uint8_t(f)` on a non-negative `float` (the intensity-scaled color
casts, lines 785 and 808): truncate toward zero, out-of-range values
reduced mod 256 (negatives clamp at 0). -/
def quantize (q : ℚ) : Nat := (⌊q⌋.toNat) % 256

/-- The `eViewMode_Normal` branch of `Update` (lines 734-796). -/
def normalModeWrites (env : TickEnv) (s : OLState) : List Action :=
  let lightsOn := s.toggleState
    || (if s.timeOfDay ≠ .day then s.motionSensorTrip else s.luxTriggerState)
  if lightsOn then
    let pix : Nat → SFloatPixel :=
      match s.basePattern with
      | some p => fun itr => drawPixel p itr
      | none => fun _ => s.settings.defaultColor
    let intensity : ℚ :=
      if s.timeOfDay = .day then 1
      else if s.motionSensorTrip then s.settings.activeIntensity
      else (1 - env.ambient) * s.settings.defaultIntensity
    (List.range eLEDCount).map (fun itr =>
      setRoofPixelAction itr
        (quantize ((pix itr).r * intensity * 255))
        (quantize ((pix itr).g * intensity * 255))
        (quantize ((pix itr).b * intensity * 255)))
  else
    (List.range eLEDCount).map (fun itr => setRoofPixelAction itr 0 0 0)

/-- The `eViewMode_CyclePatterns` branch of `Update` (lines 798-810):
advance the cycled pattern when 4 s elapsed or none selected, then draw
it at full intensity (`int(c * 255)` cast).  The `none` case after the
advance is unreachable (the guard includes `basePattern == NULL`); the
C++ would dereference null there. -/
def cycleModeStep (env : TickEnv) (s : OLState) : OLState × List Action :=
  let s1 :=
    if eCyclePatternTime ≤ wrapSub env.now s.cyclePatternTimeMS ∨ s.basePattern = none then
      { s with basePattern := some (gPatternList.getD (s.cyclePatternCount % gPatternList.length) .xmas),
               cyclePatternCount := s.cyclePatternCount + 1,
               cyclePatternTimeMS := env.now }
    else s
  match s1.basePattern with
  | some p =>
    (s1, (List.range eLEDCount).map (fun itr =>
      setRoofPixelAction itr
        (quantize ((drawPixel p itr).r * 255))
        (quantize ((drawPixel p itr).g * 255))
        (quantize ((drawPixel p itr).b * 255))))
  | none => (s1, [])

/-- The `eViewMode_TestPattern` branch of `Update` (lines 812-834): a
moving RGB triple sweeping back and forth; `testPatternValue` is the
`float` accumulator, `int` casts are floors of the non-negative value. -/
def testModeStep (env : TickEnv) (s : OLState) : OLState × List Action :=
  let tv0 := s.testPatternValue + cTestPatternPixelsPerSec * (env.deltaUS : ℚ) / 1000000
  let tv := if (eLEDCount * 2 : ℚ) ≤ tv0 then tv0 - eLEDCount * 2 else tv0
  let intValue : Int := ⌊tv⌋
  let indexR : Int := if intValue < (eLEDCount : Int) then intValue else eLEDCount * 2 - intValue - 1
  let indexG : Int := if intValue - 1 < (eLEDCount : Int) then intValue - 1 else eLEDCount * 2 - (intValue - 1)
  let indexB : Int := if intValue - 2 < (eLEDCount : Int) then intValue - 2 else eLEDCount * 2 - (intValue - 2)
  ({ s with testPatternValue := tv },
   (List.range eLEDCount).map (fun itr =>
     setRoofPixelAction itr
       (if indexR = (itr : Int) then 255 else 0)
       (if indexG = (itr : Int) then 255 else 0)
       (if indexB = (itr : Int) then 255 else 0)))

/-- The `switch(viewMode)` of `Update` (lines 732-835). -/
def renderStep (env : TickEnv) (s : OLState) : OLState × List Action :=
  match s.viewMode with
  | .normal => (s, normalModeWrites env s)
  | .cyclePatterns => cycleModeStep env s
  | .testPattern => testModeStep env s

structure TickResult where
  state : OLState
  acts : List Action
  fired : Option Nat
deriving DecidableEq

/-- The `COutdoorLightingModule::Update` (lines 659-840): gesture decoding,
then the early return when the transformer is not on (lines 726-730),
then the view-mode rendering switch, then `leds.show()` when built with
hardware present. -/
def update (env : TickEnv) (s : OLState) : TickResult :=
  let g := gestureAction env s
  if g.1.curTransformerState = false then
    ⟨g.1, g.2.1, g.2.2⟩
  else
    let r := renderStep env g.1
    ⟨r.1, g.2.1 ++ r.2 ++ (if env.hw then [.ledShow] else []), g.2.2⟩

/-! ### The test_pattern command handler (lines 1005-1033) -/

/-- The `eCmd_Failed` / `eCmd_Succeeded` results of a command handler (the
`on`/`off` branches of `TestPattern` return the literal `true`, i.e. a
success). -/
inductive TCmdResult where
  | failed
  | succeeded
deriving DecidableEq

/-- The `COutdoorLightingModule::TestPattern` (lines 1005-1033): args are the
whitespace-split tokens including the command name itself (`inArgC` is
the list length). -/
def testPatternCmd (hw : Bool) (args : List String) (s : OLState) :
    TCmdResult × OLState × List Action :=
  match args with
  | [_, a1] =>
    if a1 = "on" then
      let r := setTransformerState hw true s
      (.succeeded, { r.1 with viewMode := .testPattern }, r.2)
    else if a1 = "off" then
      if s.timeOfDay = .day then
        let r := setTransformerState hw false s
        (.succeeded, { r.1 with viewMode := .normal }, r.2)
      else
        (.succeeded, { s with viewMode := .normal }, [])
    else
      (.succeeded, s, [])
  | _ => (.failed, s, [])

/-! ### Event sequences for the gesture decoder (claim C6) -/

/-- A button-activation edge or a call of `Update`, with its
`gCurLocalMS` timestamp. -/
inductive BEvent where
  | push (t : Nat)
  | tick (t : Nat)
deriving DecidableEq

/-- Serial dispatch of button edges and ticks in arrival order,
collecting the gesture counts acted upon. -/
def runEvents (env : TickEnv) : OLState → List BEvent → OLState × List Nat
  | s, [] => (s, [])
  | s, .push t :: rest => runEvents env (buttonPush t .activated s) rest
  | s, .tick t :: rest =>
    let r := update { env with now := t } s
    let q := runEvents env r.state rest
    (q.1, r.fired.toList ++ q.2)

def pushCount : List BEvent → Nat
  | [] => 0
  | .push _ :: r => pushCount r + 1
  | .tick _ :: r => pushCount r

def lastPushTime : Nat → List BEvent → Nat
  | last, [] => last
  | _, .push t :: r => lastPushTime t r
  | last, .tick _ :: r => lastPushTime last r

/-- Well-formed burst after an activation at time `last`: every later
event is at a monotone timestamp strictly inside the 1000 ms reset
window of the most recent activation (timestamps are `uint64`
milliseconds, hence below `2 ^ 64`). -/
def wfBurst : Nat → List BEvent → Prop
  | _, [] => True
  | last, .push t :: r => last ≤ t ∧ t < last + eToggleCountResetMS ∧ t < 2 ^ 64 ∧ wfBurst t r
  | last, .tick t :: r => last ≤ t ∧ t < last + eToggleCountResetMS ∧ t < 2 ^ 64 ∧ wfBurst last r

/-- An action is either not a pixel write, or writes pure black. -/
def blackOnly : Action → Bool
  | .ledSet _ r g b => decide (r = 0) && decide (g = 0) && decide (b = 0)
  | _ => true

/-- Recognizes a `gRealTime->RegisterEvent` call among the actions. -/
def isRegisterEvent : Action → Bool
  | .registerEvent _ _ => true
  | _ => false

/-! ### Concrete states used by counterexamples and witnesses -/

def settings0 : SSettings :=
  { defaultColor := ⟨1, 1, 1⟩, defaultIntensity := 1/2, activeIntensity := 4/5,
    minLux := 0, maxLux := 1, triggerLux := 0, lateNightStartHour := 23,
    lateNightStartMin := 30, motionTripTimeoutMins := 15, lateNightTimeoutMins := 60 }

def state0 : OLState :=
  { viewMode := .normal, timeOfDay := .night, toggleState := false,
    motionSensorTrip := false, curTransformerState := false,
    curTransformerTransitionState := false, relayPin := false,
    luxTriggerState := false, basePattern := none, toggleCount := 0,
    toggleLastTimeMS := 0, cyclePatternTimeMS := 0, cyclePatternCount := 0,
    testPatternValue := 0, settings := settings0 }

def env0 : TickEnv :=
  { now := 1000, deltaUS := 0, year := 2023, month := 1, day := 5,
    ambient := 0, hw := false }

/-- A state whose transformer is fully On (logical state on, transition
target on, relay closed). -/
def xfmrOnState : OLState :=
  { state0 with curTransformerState := true,
                curTransformerTransitionState := true, relayPin := true }

/-- Warming-up Day state with one pending button push that has timed
out: the count-1 gesture will toggle off and request transformer Off. -/
def s9 : OLState :=
  { state0 with timeOfDay := .day, toggleState := true,
                curTransformerState := false, curTransformerTransitionState := true,
                relayPin := true, toggleCount := 1 }

/-- CyclePatterns mode with a timed-out count-4 gesture pending. -/
def sC5 : OLState :=
  { state0 with viewMode := .cyclePatterns, toggleCount := 4 }

/-- CyclePatterns mode with a timed-out count-3 gesture pending. -/
def sW5 : OLState :=
  { state0 with viewMode := .testPattern, toggleCount := 3 }

/-- Normal-mode state with a timed-out count-2 gesture pending. -/
def sW10 : OLState :=
  { state0 with toggleCount := 2 }

/-! ## Theorems -/

/-- The `gLEDMap` in closed form over concrete constants. -/
theorem gLEDMap_eq (i : Nat) : gLEDMap i = if i < 228 then 227 - i else 456 + i := by
  simp only [gLEDMap, eLEDsPerStrip, eLEDPanelsCenterToLeft, eLEDsPerPanel,
    eLEDStripCenterToLeft, eLEDStripCenterToRight]
  split_ifs <;> omega

/-- The `uint64` subtraction agrees with truncated `Nat` subtraction on a
monotone in-range clock. -/
theorem wrapSub_eq (a b : Nat) (hba : b ≤ a) (ha : a < 2 ^ 64) : wrapSub a b = a - b := by
  unfold wrapSub
  have hb : b < 2 ^ 64 := lt_of_le_of_lt hba ha
  have h1 : a % 2 ^ 64 = a := Nat.mod_eq_of_lt ha
  have h2 : b % 2 ^ 64 = b := Nat.mod_eq_of_lt hb
  rw [h1, h2]
  omega

/-- Claim C2 (counter-evidence, evaluated on the code): the per-range
match of `FindBasePattern` compares month and day as two independent
scalar comparisons, not as a composite (month, day) pair: the registered
Easter range (2018, 3/31 .. 4/1) does not match the query
(2018, Apr 1) even though that date lies inside the composite inclusive
interval, and consequently `findBasePattern` selects nothing that day. -/
theorem C2_scalar_comparison :
    (⟨2018, 3, 31, 4, 1⟩ : SDateRange) ∈ gEasterDateRange
    ∧ PatternId.easter ∈ gPatternList
    ∧ dateRangeMatches ⟨2018, 3, 31, 4, 1⟩ 2018 4 1 = false
    ∧ dateRangeMatchesLex ⟨2018, 3, 31, 4, 1⟩ 2018 4 1 = true
    ∧ findBasePattern 2018 4 1 = none := by decide

/-- Claim C3 (counter-evidence, evaluated on the code): in 2018 the
Easter table lists Mar 31 and Apr 1, but the selector matches the
pattern on neither day (the cross-month range is empty under the scalar
day comparison); for a same-month year such as 2016 both tabulated days
are selected as the claim states. -/
theorem C3_easter_cross_month_range_unreachable :
    (⟨2018, 3, 31, 4, 1⟩ : SDateRange) ∈ dateRangeArray .easter
    ∧ findBasePattern 2018 3 31 = none
    ∧ findBasePattern 2018 4 1 = none
    ∧ findBasePattern 2016 3 27 = some .easter
    ∧ findBasePattern 2016 3 28 = some .easter := by decide

/-- Claim C4 (counterexample): the LED index map is not onto
[0, eLEDCount): physical index 300 is hit by no logical index. -/
theorem C4_counterexample :
    ¬ (∀ p, p < eLEDCount → ∃ i, i < eLEDCount ∧ gLEDMap i = p) := by
  intro hcl
  obtain ⟨i, hi, he⟩ := hcl 300 (by decide)
  rw [gLEDMap_eq i] at he
  split_ifs at he <;> omega

/-- Claim C4 (amended): `gLEDMap` is injective on [0, eLEDCount) and its
image is exactly the strip-address set [0, 228) ∪ [684, 836) (left
segment reversed onto strip 0, right segment offset onto strip 3) — a
bijection onto that set, with no holes or duplicates, but not onto
[0, eLEDCount). -/
theorem C4_injective_onto_strip_addresses :
    (∀ i j, i < eLEDCount → j < eLEDCount → gLEDMap i = gLEDMap j → i = j)
    ∧ (∀ p, (p < 228 ∨ (684 ≤ p ∧ p < 836)) ↔ ∃ i, i < eLEDCount ∧ gLEDMap i = p) := by
  have hc : eLEDCount = 380 := rfl
  constructor
  · intro i j hi hj h
    rw [gLEDMap_eq i, gLEDMap_eq j] at h
    rw [hc] at hi hj
    split_ifs at h <;> omega
  · intro p
    rw [hc]
    constructor
    · rintro (hp | ⟨hp1, hp2⟩)
      · exact ⟨227 - p, by omega, by rw [gLEDMap_eq, if_pos (by omega)]; omega⟩
      · exact ⟨p - 456, by omega, by rw [gLEDMap_eq, if_neg (by omega)]; omega⟩
    · rintro ⟨i, hi, hip⟩
      rw [gLEDMap_eq i] at hip
      split_ifs at hip <;> omega

/-- Witness for `C4_injective_onto_strip_addresses` at concrete inputs. -/
theorem C4_injective_onto_strip_addresses_witness :
    (0 : Nat) = 0 ∧ ∃ i, i < eLEDCount ∧ gLEDMap i = 227 :=
  ⟨C4_injective_onto_strip_addresses.1 0 0 (by decide) (by decide) rfl,
   (C4_injective_onto_strip_addresses.2 227).mp (Or.inl (by decide))⟩

/-- Claim C1 (counterexample): on an On-to-Off request the logical state
flag `curTransformerState` is cleared immediately at request time —
before the 100 ms settle event has fired — contradicting the claim that
the logical state is marked Off only after the delay expires (the relay
pin, by contrast, is still closed at that point). -/
theorem C1_counterexample :
    xfmrOnState.curTransformerState = true
    ∧ (setTransformerState MHardwarePresentFlag false xfmrOnState).1.curTransformerState = false
    ∧ (setTransformerState MHardwarePresentFlag false xfmrOnState).1.relayPin = true := by
  refine ⟨rfl, rfl, rfl⟩

/-- Claim C1 (amended): for every On-to-Off request (a transition to On
in progress or complete), the request emits exactly the all-black pixel
writes (plus the `leds.show` flush when built with hardware present)
followed by scheduling the 100 ms settle event; no relay write happens
at request time and the logical flag is cleared immediately; the relay
GPIO is driven false only by the settle event handler — so the
pixel-blank-and-flush step happens strictly before the relay is opened. -/
theorem C1_blank_flush_before_relay (hw : Bool) (s : OLState)
    (h : s.curTransformerTransitionState = true) :
    (setTransformerState hw false s).2
      = blankActions ++ (if hw then [Action.ledShow] else [])
        ++ [Action.registerEvent nmXfmrWarmup (eLEDUpdateMS * 1000)]
    ∧ (∀ b, Action.relayWrite b ∉ (setTransformerState hw false s).2)
    ∧ (setTransformerState hw false s).1.relayPin = s.relayPin
    ∧ (setTransformerState hw false s).1.curTransformerState = false
    ∧ (transformerTransitionEvent (setTransformerState hw false s).1).2
        = [Action.relayWrite false]
    ∧ (transformerTransitionEvent (setTransformerState hw false s).1).1.relayPin = false := by
  have hne : ¬ (s.curTransformerTransitionState = false) := by simp [h]
  refine ⟨?_, ?_, ?_, ?_, ?_, ?_⟩
  · simp [setTransformerState, hne]
  · intro b
    cases hw <;>
      simp [setTransformerState, hne, blankActions, setRoofPixelAction]
  · simp [setTransformerState, hne]
  · simp [setTransformerState, hne]
  · simp [setTransformerState, hne, transformerTransitionEvent]
  · simp [setTransformerState, hne, transformerTransitionEvent]

/-- Witness for `C1_blank_flush_before_relay` at the concrete On state. -/
theorem C1_blank_flush_before_relay_witness :
    (transformerTransitionEvent (setTransformerState false false xfmrOnState).1).2
      = [Action.relayWrite false]
    ∧ (setTransformerState false false xfmrOnState).1.curTransformerState = false :=
  ⟨(C1_blank_flush_before_relay false xfmrOnState rfl).2.2.2.2.1,
   (C1_blank_flush_before_relay false xfmrOnState rfl).2.2.2.1⟩

/-- Claim C7: `SetTransformerState` is idempotent: repeating a request
adds no actions and does not change the state, a single request
schedules at most one transition timer, and a request whose target
transition is already in progress or complete is a complete no-op. -/
theorem C7_idempotent (hw : Bool) (s : OLState) (b : Bool) :
    setTransformerState hw b (setTransformerState hw b s).1 = ((setTransformerState hw b s).1, [])
    ∧ (setTransformerState hw b s).2.countP (fun a => isRegisterEvent a) ≤ 1
    ∧ (s.curTransformerTransitionState = b → setTransformerState hw b s = (s, [])) := by
  have hblank : blankActions.countP (fun a => isRegisterEvent a) = 0 := by
    rw [List.countP_eq_zero]
    intro a ha
    simp only [blankActions, List.mem_map, setRoofPixelAction] at ha
    obtain ⟨i, _, rfl⟩ := ha
    simp [isRegisterEvent]
  have hreg : ∀ nm usec, isRegisterEvent (Action.registerEvent nm usec) = true := fun _ _ => rfl
  have hrel : ∀ bb, isRegisterEvent (Action.relayWrite bb) = false := fun _ => rfl
  have hshow : isRegisterEvent Action.ledShow = false := rfl
  refine ⟨?_, ?_, ?_⟩
  · by_cases h : s.curTransformerTransitionState = b
    · simp [setTransformerState, h]
    · cases b <;> simp [setTransformerState, h]
  · by_cases h : s.curTransformerTransitionState = b
    · simp [setTransformerState, h]
    · cases b <;> cases hw <;>
        simp [setTransformerState, h, List.countP_append, List.countP_cons, hblank,
          hreg, hrel, hshow]
  · intro h
    simp [setTransformerState, h]

/-- Witness for `C7_idempotent` at a concrete state and target. -/
theorem C7_idempotent_witness :
    setTransformerState false true (setTransformerState false true xfmrOnState).1
      = ((setTransformerState false true xfmrOnState).1, [])
    ∧ setTransformerState false true xfmrOnState = (xfmrOnState, []) :=
  ⟨(C7_idempotent false xfmrOnState true).1,
   (C7_idempotent false xfmrOnState true).2.2 rfl⟩

/-- Claim C8 (counter-evidence, evaluated on the code): a wrong argument
count makes the `test_pattern` handler return `eCmd_Failed` with no
state mutation, but an unrecognized single token (neither on nor off)
falls through to `return eCmd_Succeeded` (line 1032) — still with no
state mutation — instead of the Failed result the claim requires. -/
theorem C8_unrecognized_token_not_failed :
    testPatternCmd false [ "test_pattern", "bogus" ] state0 = (.succeeded, state0, [])
    ∧ testPatternCmd false [ "test_pattern" ] state0 = (.failed, state0, [])
    ∧ testPatternCmd false [ "test_pattern", "on", "x" ] state0 = (.failed, state0, []) := by
  refine ⟨?_, rfl, rfl⟩
  simp [testPatternCmd, state0, settings0]

/-! ### Projection helper lemmas -/

theorem setTransformerState_fst_toggleCount (hw b : Bool) (s : OLState) :
    (setTransformerState hw b s).1.toggleCount = s.toggleCount := by
  unfold setTransformerState; split_ifs <;> rfl

theorem setTransformerState_fst_toggleLastTimeMS (hw b : Bool) (s : OLState) :
    (setTransformerState hw b s).1.toggleLastTimeMS = s.toggleLastTimeMS := by
  unfold setTransformerState; split_ifs <;> rfl

theorem setTransformerState_fst_viewMode (hw b : Bool) (s : OLState) :
    (setTransformerState hw b s).1.viewMode = s.viewMode := by
  unfold setTransformerState; split_ifs <;> rfl

theorem setTransformerState_fst_toggleState (hw b : Bool) (s : OLState) :
    (setTransformerState hw b s).1.toggleState = s.toggleState := by
  unfold setTransformerState; split_ifs <;> rfl

theorem setTransformerState_fst_timeOfDay (hw b : Bool) (s : OLState) :
    (setTransformerState hw b s).1.timeOfDay = s.timeOfDay := by
  unfold setTransformerState; split_ifs <;> rfl

theorem setTransformerState_fst_motionSensorTrip (hw b : Bool) (s : OLState) :
    (setTransformerState hw b s).1.motionSensorTrip = s.motionSensorTrip := by
  unfold setTransformerState; split_ifs <;> rfl

theorem setTransformerState_true_trans (hw : Bool) (s : OLState) :
    (setTransformerState hw true s).1.curTransformerTransitionState = true := by
  unfold setTransformerState
  split_ifs with h1 h2 <;> simp_all

theorem setTransformerState_cur_false (hw b : Bool) (s : OLState)
    (h : s.curTransformerState = false) :
    (setTransformerState hw b s).1.curTransformerState = false := by
  unfold setTransformerState; split_ifs <;> simp [h]

theorem motionSensorTrigger_fst_viewMode (ev : EPinEvent) (s : OLState) :
    (motionSensorTrigger ev s).1.viewMode = s.viewMode := by
  unfold motionSensorTrigger; split_ifs <;> rfl

theorem motionSensorTrigger_fst_toggleState (ev : EPinEvent) (s : OLState) :
    (motionSensorTrigger ev s).1.toggleState = s.toggleState := by
  unfold motionSensorTrigger; split_ifs <;> rfl

theorem motionSensorTrigger_fst_toggleCount (ev : EPinEvent) (s : OLState) :
    (motionSensorTrigger ev s).1.toggleCount = s.toggleCount := by
  unfold motionSensorTrigger; split_ifs <;> rfl

theorem motionSensorTrigger_fst_cur (ev : EPinEvent) (s : OLState) :
    (motionSensorTrigger ev s).1.curTransformerState = s.curTransformerState := by
  unfold motionSensorTrigger; split_ifs <;> rfl

theorem cycleModeStep_shape (env : TickEnv) (s : OLState) :
    ∃ bp c t, (cycleModeStep env s).1
      = { s with basePattern := bp, cyclePatternCount := c, cyclePatternTimeMS := t } := by
  unfold cycleModeStep
  by_cases hc : eCyclePatternTime ≤ wrapSub env.now s.cyclePatternTimeMS ∨ s.basePattern = none
  · rw [if_pos hc]
    exact ⟨_, _, _, rfl⟩
  · rw [if_neg hc]
    cases hb : s.basePattern with
    | none =>
      exact ⟨s.basePattern, s.cyclePatternCount, s.cyclePatternTimeMS,
        by simp only [hb]; rw [← hb]⟩
    | some p =>
      exact ⟨s.basePattern, s.cyclePatternCount, s.cyclePatternTimeMS,
        by simp only [hb]; rw [← hb]⟩

theorem renderStep_fst_toggleCount (env : TickEnv) (s : OLState) :
    (renderStep env s).1.toggleCount = s.toggleCount := by
  unfold renderStep
  cases hv : s.viewMode with
  | normal => rfl
  | cyclePatterns =>
    obtain ⟨bp, c, t, hs⟩ := cycleModeStep_shape env s
    rw [hs]
  | testPattern => rfl

theorem renderStep_fst_toggleLastTimeMS (env : TickEnv) (s : OLState) :
    (renderStep env s).1.toggleLastTimeMS = s.toggleLastTimeMS := by
  unfold renderStep
  cases hv : s.viewMode with
  | normal => rfl
  | cyclePatterns =>
    obtain ⟨bp, c, t, hs⟩ := cycleModeStep_shape env s
    rw [hs]
  | testPattern => rfl

theorem renderStep_fst_viewMode (env : TickEnv) (s : OLState) :
    (renderStep env s).1.viewMode = s.viewMode := by
  unfold renderStep
  cases hv : s.viewMode with
  | normal => exact hv
  | cyclePatterns =>
    obtain ⟨bp, c, t, hs⟩ := cycleModeStep_shape env s
    rw [hs, hv]
  | testPattern => exact hv

theorem renderStep_fst_toggleState (env : TickEnv) (s : OLState) :
    (renderStep env s).1.toggleState = s.toggleState := by
  unfold renderStep
  cases hv : s.viewMode with
  | normal => rfl
  | cyclePatterns =>
    obtain ⟨bp, c, t, hs⟩ := cycleModeStep_shape env s
    rw [hs]
  | testPattern => rfl

theorem renderStep_fst_trans (env : TickEnv) (s : OLState) :
    (renderStep env s).1.curTransformerTransitionState
      = s.curTransformerTransitionState := by
  unfold renderStep
  cases hv : s.viewMode with
  | normal => rfl
  | cyclePatterns =>
    obtain ⟨bp, c, t, hs⟩ := cycleModeStep_shape env s
    rw [hs]
  | testPattern => rfl

theorem renderStep_fst_relayPin (env : TickEnv) (s : OLState) :
    (renderStep env s).1.relayPin = s.relayPin := by
  unfold renderStep
  cases hv : s.viewMode with
  | normal => rfl
  | cyclePatterns =>
    obtain ⟨bp, c, t, hs⟩ := cycleModeStep_shape env s
    rw [hs]
  | testPattern => rfl

theorem update_fst_toggleCount (env : TickEnv) (s : OLState) :
    (update env s).state.toggleCount = (gestureAction env s).1.toggleCount := by
  unfold update
  by_cases hc : (gestureAction env s).1.curTransformerState = false
  · simp [hc]
  · simp [hc, renderStep_fst_toggleCount]

theorem update_fst_toggleLastTimeMS (env : TickEnv) (s : OLState) :
    (update env s).state.toggleLastTimeMS = (gestureAction env s).1.toggleLastTimeMS := by
  unfold update
  by_cases hc : (gestureAction env s).1.curTransformerState = false
  · simp [hc]
  · simp [hc, renderStep_fst_toggleLastTimeMS]

theorem update_fst_viewMode (env : TickEnv) (s : OLState) :
    (update env s).state.viewMode = (gestureAction env s).1.viewMode := by
  unfold update
  by_cases hc : (gestureAction env s).1.curTransformerState = false
  · simp [hc]
  · simp [hc, renderStep_fst_viewMode]

theorem update_fst_toggleState (env : TickEnv) (s : OLState) :
    (update env s).state.toggleState = (gestureAction env s).1.toggleState := by
  unfold update
  by_cases hc : (gestureAction env s).1.curTransformerState = false
  · simp [hc]
  · simp [hc, renderStep_fst_toggleState]

theorem update_fst_trans (env : TickEnv) (s : OLState) :
    (update env s).state.curTransformerTransitionState
      = (gestureAction env s).1.curTransformerTransitionState := by
  unfold update
  by_cases hc : (gestureAction env s).1.curTransformerState = false
  · simp [hc]
  · simp [hc, renderStep_fst_trans]

theorem update_fst_relayPin (env : TickEnv) (s : OLState) :
    (update env s).state.relayPin = (gestureAction env s).1.relayPin := by
  unfold update
  by_cases hc : (gestureAction env s).1.curTransformerState = false
  · simp [hc]
  · simp [hc, renderStep_fst_relayPin]

theorem update_fired_eq (env : TickEnv) (s : OLState) :
    (update env s).fired = (gestureAction env s).2.2 := by
  unfold update
  by_cases hc : (gestureAction env s).1.curTransformerState = false
  · simp [hc]
  · simp [hc]

/-! ### Gesture-decoder characterization lemmas -/

theorem gestureAction_silent (env : TickEnv) (s : OLState)
    (h : ¬ (eToggleCountResetMS ≤ wrapSub env.now s.toggleLastTimeMS ∧ 0 < s.toggleCount)) :
    gestureAction env s = (s, [], none) := by
  unfold gestureAction
  rw [if_neg h]

theorem gestureAction_fired (env : TickEnv) (s : OLState)
    (h1 : eToggleCountResetMS ≤ wrapSub env.now s.toggleLastTimeMS)
    (h2 : 0 < s.toggleCount) :
    (gestureAction env s).2.2 = some s.toggleCount
    ∧ (gestureAction env s).1.toggleCount = 0 := by
  unfold gestureAction
  rw [if_pos ⟨h1, h2⟩]
  exact ⟨rfl, rfl⟩

theorem gestureAction_c1_revert (env : TickEnv) (s : OLState)
    (h1 : eToggleCountResetMS ≤ wrapSub env.now s.toggleLastTimeMS)
    (hc : s.toggleCount = 1) (hm : s.viewMode ≠ .normal) :
    (gestureAction env s).1.viewMode = .normal
    ∧ (gestureAction env s).1.toggleState = s.toggleState
    ∧ (gestureAction env s).1.curTransformerTransitionState = s.curTransformerTransitionState
    ∧ (gestureAction env s).1.relayPin = s.relayPin := by
  unfold gestureAction
  rw [if_pos ⟨h1, by omega⟩]
  simp [hc, ePushCount_ToggleState, hm]

theorem gestureAction_c2_toggle (env : TickEnv) (s : OLState)
    (h1 : eToggleCountResetMS ≤ wrapSub env.now s.toggleLastTimeMS)
    (hc : s.toggleCount = 2) :
    (gestureAction env s).1.toggleState = true
    ∧ (gestureAction env s).1.viewMode = s.viewMode := by
  unfold gestureAction
  rw [if_pos ⟨h1, by omega⟩]
  simp [hc, ePushCount_ToggleState, ePushCount_MotionTrip,
    motionSensorTrigger_fst_viewMode]

theorem gestureAction_c3 (env : TickEnv) (s : OLState)
    (h1 : eToggleCountResetMS ≤ wrapSub env.now s.toggleLastTimeMS)
    (hc : s.toggleCount = 3) :
    (gestureAction env s).1.viewMode = .cyclePatterns
    ∧ (gestureAction env s).1.curTransformerTransitionState = true := by
  unfold gestureAction
  rw [if_pos ⟨h1, by omega⟩]
  simp [hc, ePushCount_ToggleState, ePushCount_MotionTrip, ePushCount_CyclePatterns,
    setTransformerState_fst_viewMode, setTransformerState_true_trans]

theorem gestureAction_c4 (env : TickEnv) (s : OLState)
    (h1 : eToggleCountResetMS ≤ wrapSub env.now s.toggleLastTimeMS)
    (hc : s.toggleCount = 4) :
    (gestureAction env s).1.viewMode = .testPattern
    ∧ (gestureAction env s).1.curTransformerTransitionState = true := by
  unfold gestureAction
  rw [if_pos ⟨h1, by omega⟩]
  simp [hc, ePushCount_ToggleState, ePushCount_MotionTrip, ePushCount_CyclePatterns,
    ePushCount_TestPattern, setTransformerState_fst_viewMode, setTransformerState_true_trans]

theorem gestureAction_cur_false (env : TickEnv) (s : OLState)
    (h : s.curTransformerState = false) :
    (gestureAction env s).1.curTransformerState = false := by
  unfold gestureAction
  by_cases hcond : eToggleCountResetMS ≤ wrapSub env.now s.toggleLastTimeMS ∧ 0 < s.toggleCount
  · rw [if_pos hcond]
    by_cases e1 : s.toggleCount = ePushCount_ToggleState
    · by_cases e2 : s.viewMode = ViewMode.normal
      · by_cases e3 : s.timeOfDay = TimeOfDay.day
        · simp [e1, e2, e3, setTransformerState_cur_false, h]
        · by_cases e4 : s.timeOfDay = TimeOfDay.lateNight
          · cases e5 : s.toggleState <;> simp [e1, e2, e3, e4, e5, h]
          · simp [e1, e2, e3, e4, h]
      · simp [e1, e2, h]
    · by_cases e6 : s.toggleCount = ePushCount_MotionTrip
      · simp [e1, e6, ePushCount_ToggleState, ePushCount_MotionTrip,
          motionSensorTrigger_fst_cur, h]
      · by_cases e7 : s.toggleCount = ePushCount_CyclePatterns
        · simp [e1, e6, e7, ePushCount_ToggleState, ePushCount_MotionTrip,
            ePushCount_CyclePatterns, setTransformerState_cur_false, h]
        · by_cases e8 : s.toggleCount = ePushCount_TestPattern
          · simp [e1, e6, e7, e8, ePushCount_ToggleState, ePushCount_MotionTrip,
              ePushCount_CyclePatterns, ePushCount_TestPattern,
              setTransformerState_cur_false, h]
          · simp [e1, e6, e7, e8, h]
  · rw [if_neg hcond]
    exact h

/-! ### Blackness of the actions a transformer-off tick can emit -/

theorem blankActions_black : ∀ a ∈ blankActions, blackOnly a = true := by
  intro a ha
  simp only [blankActions, List.mem_map, setRoofPixelAction] at ha
  obtain ⟨i, _, rfl⟩ := ha
  rfl

theorem blackOnly_isTrue :
    (∀ b, blackOnly (Action.relayWrite b) = true)
    ∧ (∀ nm u, blackOnly (Action.registerEvent nm u) = true)
    ∧ (∀ nm, blackOnly (Action.cancelEvent nm) = true)
    ∧ blackOnly Action.ledShow = true
    ∧ (∀ p, blackOnly (Action.ledSet p 0 0 0) = true) :=
  ⟨fun _ => rfl, fun _ _ => rfl, fun _ => rfl, rfl, fun _ => rfl⟩

theorem setTransformerState_acts_black (hw b : Bool) (s : OLState) :
    ∀ a ∈ (setTransformerState hw b s).2, blackOnly a = true := by
  intro a ha
  unfold setTransformerState at ha
  split_ifs at ha with hq1 hq2 hq3
  · simp at ha
  · simp at ha
    rcases ha with rfl | rfl
    · exact blackOnly_isTrue.1 true
    · exact blackOnly_isTrue.2.1 _ _
  · simp only [List.mem_append, List.mem_singleton] at ha
    rcases ha with (hb | rfl) | rfl
    · exact blankActions_black a hb
    · exact blackOnly_isTrue.2.2.2.1
    · exact blackOnly_isTrue.2.1 _ _
  · simp only [List.append_nil, List.mem_append, List.mem_singleton] at ha
    rcases ha with hb | rfl
    · exact blankActions_black a hb
    · exact blackOnly_isTrue.2.1 _ _

theorem motionSensorTrigger_acts_black (ev : EPinEvent) (s : OLState) :
    ∀ a ∈ (motionSensorTrigger ev s).2, blackOnly a = true := by
  intro a ha
  unfold motionSensorTrigger at ha
  split_ifs at ha <;> simp at ha
  subst ha
  exact blackOnly_isTrue.2.1 _ _

theorem forall_mem_append_black (l1 l2 : List Action)
    (h1 : ∀ a ∈ l1, blackOnly a = true) (h2 : ∀ a ∈ l2, blackOnly a = true) :
    ∀ a ∈ l1 ++ l2, blackOnly a = true := by
  intro a ha
  rcases List.mem_append.mp ha with hl | hr
  · exact h1 a hl
  · exact h2 a hr

theorem gestureAction_acts_black (env : TickEnv) (s : OLState) :
    ∀ a ∈ (gestureAction env s).2.1, blackOnly a = true := by
  unfold gestureAction
  by_cases hcond : eToggleCountResetMS ≤ wrapSub env.now s.toggleLastTimeMS ∧ 0 < s.toggleCount
  · rw [if_pos hcond]
    by_cases e1 : s.toggleCount = ePushCount_ToggleState
    · by_cases e2 : s.viewMode = ViewMode.normal
      · by_cases e3 : s.timeOfDay = TimeOfDay.day
        · simp only [e1, e2, e3]
          simp
          exact setTransformerState_acts_black _ _ _
        · by_cases e4 : s.timeOfDay = TimeOfDay.lateNight
          · cases e5 : s.toggleState <;> simp [e1, e2, e3, e4, e5, blackOnly]
          · simp [e1, e2, e3, e4]
      · simp [e1, e2]
    · by_cases e6 : s.toggleCount = ePushCount_MotionTrip
      · simp only [e1, e6]
        simp only [ePushCount_ToggleState, ePushCount_MotionTrip, if_false]
        simp only [if_true]
        exact fun a ha => forall_mem_append_black _ _
          (motionSensorTrigger_acts_black _ _) (motionSensorTrigger_acts_black _ _) a ha
      · by_cases e7 : s.toggleCount = ePushCount_CyclePatterns
        · simp [e1, e6, e7]
          exact setTransformerState_acts_black _ _ _
        · by_cases e8 : s.toggleCount = ePushCount_TestPattern
          · simp [e1, e6, e7, e8]
            exact setTransformerState_acts_black _ _ _
          · simp [e1, e6, e7, e8]
  · rw [if_neg hcond]
    simp

/-! ### Claims C5, C9, C10 -/

/-- Claim C5 (counterexample): a count-4 gesture delivered while the
view mode is CyclePatterns does not return the mode to Normal: it enters
TestPattern and requests transformer On, performing exactly the action
the claim says must not happen. -/
theorem C5_counterexample :
    sC5.viewMode ≠ ViewMode.normal
    ∧ (update env0 sC5).state.viewMode = ViewMode.testPattern
    ∧ (update env0 sC5).state.curTransformerTransitionState = true := by
  decide

/-- Claim C5 (amended): only a count-1 gesture received outside Normal
returns the mode to Normal without acting (toggle flag, transformer
request and relay all untouched); counts 2, 3, 4 act on the count
regardless of the current mode: 2 simulates the motion trip and forces
the toggle flag true (leaving the mode unchanged), 3 enters
CyclePatterns and requests transformer On, 4 enters TestPattern and
requests transformer On. -/
theorem C5_gesture_outside_normal (env : TickEnv) (s : OLState)
    (hfire : eToggleCountResetMS ≤ wrapSub env.now s.toggleLastTimeMS)
    (hmode : s.viewMode ≠ .normal) :
    (s.toggleCount = 1 →
      (update env s).state.viewMode = .normal
      ∧ (update env s).state.toggleState = s.toggleState
      ∧ (update env s).state.curTransformerTransitionState = s.curTransformerTransitionState
      ∧ (update env s).state.relayPin = s.relayPin)
    ∧ (s.toggleCount = 2 →
      (update env s).state.viewMode = s.viewMode
      ∧ (update env s).state.toggleState = true)
    ∧ (s.toggleCount = 3 →
      (update env s).state.viewMode = .cyclePatterns
      ∧ (update env s).state.curTransformerTransitionState = true)
    ∧ (s.toggleCount = 4 →
      (update env s).state.viewMode = .testPattern
      ∧ (update env s).state.curTransformerTransitionState = true) := by
  refine ⟨fun hc => ?_, fun hc => ?_, fun hc => ?_, fun hc => ?_⟩
  · obtain ⟨hv, ht, htr, hr⟩ := gestureAction_c1_revert env s hfire hc hmode
    rw [update_fst_viewMode, update_fst_toggleState, update_fst_trans, update_fst_relayPin]
    exact ⟨hv, ht, htr, hr⟩
  · obtain ⟨ht, hv⟩ := gestureAction_c2_toggle env s hfire hc
    rw [update_fst_viewMode, update_fst_toggleState]
    exact ⟨hv, ht⟩
  · obtain ⟨hv, htr⟩ := gestureAction_c3 env s hfire hc
    rw [update_fst_viewMode, update_fst_trans]
    exact ⟨hv, htr⟩
  · obtain ⟨hv, htr⟩ := gestureAction_c4 env s hfire hc
    rw [update_fst_viewMode, update_fst_trans]
    exact ⟨hv, htr⟩

/-- Witness for `C5_gesture_outside_normal`: a count-3 gesture in
TestPattern mode switches to CyclePatterns (not Normal) and requests
transformer On. -/
theorem C5_gesture_outside_normal_witness :
    (update env0 sW5).state.viewMode = ViewMode.cyclePatterns
    ∧ (update env0 sW5).state.curTransformerTransitionState = true :=
  (C5_gesture_outside_normal env0 sW5 (by decide) (by decide)).2.2.1 rfl

/-- Claim C9 (counterexample): with the transformer's logical state Off
(`curTransformerState = false`) a tick can still write pixel values: in
state `s9` (warming up, daytime, pending count-1 gesture) the toggle
flips off, the gesture handler requests transformer Off, and the request
blanks the strip — the tick's action list contains pixel writes. -/
theorem C9_counterexample :
    s9.curTransformerState = false
    ∧ (update env0 s9).acts ≠ []
    ∧ Action.ledSet (gLEDMap 0) 0 0 0 ∈ (update env0 s9).acts := by
  decide

/-- Claim C9 (amended): while the transformer's logical state is Off at
the start of a tick, the rendering switch contributes nothing (the
tick's actions are exactly the gesture handler's actions), and every
pixel write among them is pure black — colored rendering, including the
diagnostic modes' output, only ever occurs while the logical state is
On. -/
theorem C9_no_render_while_off (env : TickEnv) (s : OLState)
    (h : s.curTransformerState = false) :
    (update env s).acts = (gestureAction env s).2.1
    ∧ ∀ a ∈ (update env s).acts, blackOnly a = true := by
  have hcur := gestureAction_cur_false env s h
  have hacts : (update env s).acts = (gestureAction env s).2.1 := by
    unfold update
    simp [hcur]
  refine ⟨hacts, ?_⟩
  rw [hacts]
  exact gestureAction_acts_black env s

/-- Witness for `C9_no_render_while_off` at the concrete state `s9`. -/
theorem C9_no_render_while_off_witness :
    (update env0 s9).acts = (gestureAction env0 s9).2.1 :=
  (C9_no_render_while_off env0 s9 rfl).1

/-- Claim C10: acting on a count-2 gesture (the simulated motion-trip
pulse) sets the toggle flag true, for every prior flag value, view mode
and time of day. -/
theorem C10_motion_gesture_sets_toggle (env : TickEnv) (s : OLState)
    (hfire : eToggleCountResetMS ≤ wrapSub env.now s.toggleLastTimeMS)
    (hc : s.toggleCount = 2) :
    (update env s).state.toggleState = true := by
  rw [update_fst_toggleState]
  exact (gestureAction_c2_toggle env s hfire hc).1

/-- Witness for `C10_motion_gesture_sets_toggle` at a concrete state
whose toggle flag is false. -/
theorem C10_motion_gesture_sets_toggle_witness :
    sW10.toggleState = false ∧ (update env0 sW10).state.toggleState = true :=
  ⟨rfl, C10_motion_gesture_sets_toggle env0 sW10 (by decide) rfl⟩

/-! ### Claim C6: the gesture decoder over event sequences -/

theorem buttonPush_activated (t : Nat) (s : OLState) :
    buttonPush t .activated s
      = { s with toggleLastTimeMS := t, toggleCount := s.toggleCount + 1 } := by
  simp [buttonPush]

theorem update_silent (env : TickEnv) (s : OLState)
    (h : ¬ (eToggleCountResetMS ≤ wrapSub env.now s.toggleLastTimeMS ∧ 0 < s.toggleCount)) :
    (update env s).fired = none
    ∧ (update env s).state.toggleCount = s.toggleCount
    ∧ (update env s).state.toggleLastTimeMS = s.toggleLastTimeMS := by
  rw [update_fired_eq, update_fst_toggleCount, update_fst_toggleLastTimeMS,
    gestureAction_silent env s h]
  exact ⟨rfl, rfl, rfl⟩

theorem update_fires (env : TickEnv) (s : OLState)
    (h1 : eToggleCountResetMS ≤ wrapSub env.now s.toggleLastTimeMS)
    (h2 : 0 < s.toggleCount) :
    (update env s).fired = some s.toggleCount
    ∧ (update env s).state.toggleCount = 0 := by
  rw [update_fired_eq, update_fst_toggleCount]
  exact gestureAction_fired env s h1 h2

theorem runEvents_append (env : TickEnv) (l1 l2 : List BEvent) : ∀ s : OLState,
    runEvents env s (l1 ++ l2)
      = ((runEvents env (runEvents env s l1).1 l2).1,
         (runEvents env s l1).2 ++ (runEvents env (runEvents env s l1).1 l2).2) := by
  induction l1 with
  | nil => intro s; simp [runEvents]
  | cons e r ih =>
    intro s
    cases e with
    | push t => simp [runEvents, ih]
    | tick t => simp [runEvents, ih]

theorem lastPushTime_bounds (evs : List BEvent) : ∀ last : Nat,
    wfBurst last evs → last < 2 ^ 64 →
    last ≤ lastPushTime last evs ∧ lastPushTime last evs < 2 ^ 64 := by
  induction evs with
  | nil =>
    intro last _ h64
    simp only [lastPushTime]
    exact ⟨le_rfl, h64⟩
  | cons e r ih =>
    intro last hwf h64
    cases e with
    | push t =>
      simp only [wfBurst] at hwf
      obtain ⟨hle, _, ht64, hwf'⟩ := hwf
      obtain ⟨ih1, ih2⟩ := ih t hwf' ht64
      exact ⟨le_trans hle ih1, by simpa [lastPushTime] using ih2⟩
    | tick t =>
      simp only [wfBurst] at hwf
      obtain ⟨_, _, _, hwf'⟩ := hwf
      obtain ⟨ih1, ih2⟩ := ih last hwf' h64
      exact ⟨by simpa [lastPushTime] using ih1, by simpa [lastPushTime] using ih2⟩

/-- A burst of events strictly inside the reset window fires no gesture:
the counter accumulates the pushes and the last-activation time tracks
the last push. -/
theorem runEvents_burst_silent (env : TickEnv) (evs : List BEvent) : ∀ s : OLState,
    wfBurst s.toggleLastTimeMS evs → 0 < s.toggleCount → s.toggleLastTimeMS < 2 ^ 64 →
    (runEvents env s evs).2 = []
    ∧ (runEvents env s evs).1.toggleCount = s.toggleCount + pushCount evs
    ∧ (runEvents env s evs).1.toggleLastTimeMS = lastPushTime s.toggleLastTimeMS evs := by
  induction evs with
  | nil =>
    intro s _ _ _
    simp [runEvents, pushCount, lastPushTime]
  | cons e r ih =>
    intro s hwf hc h64
    cases e with
    | push t =>
      simp only [wfBurst] at hwf
      obtain ⟨hle, hlt, ht64, hwf'⟩ := hwf
      have hb := buttonPush_activated t s
      have ihr := ih (buttonPush t .activated s)
        (by rw [hb]; exact hwf') (by rw [hb]; exact Nat.succ_pos _) (by rw [hb]; exact ht64)
      obtain ⟨ih1, ih2, ih3⟩ := ihr
      refine ⟨?_, ?_, ?_⟩
      · simpa [runEvents] using ih1
      · simp only [runEvents, pushCount]
        rw [ih2, hb]
        simp
        omega
      · simp only [runEvents, lastPushTime]
        rw [ih3, hb]
    | tick t =>
      simp only [wfBurst] at hwf
      obtain ⟨hle, hlt, ht64, hwf'⟩ := hwf
      have hws : wrapSub t s.toggleLastTimeMS = t - s.toggleLastTimeMS :=
        wrapSub_eq t s.toggleLastTimeMS hle ht64
      have hnf : ¬ (eToggleCountResetMS ≤ wrapSub t s.toggleLastTimeMS ∧ 0 < s.toggleCount) := by
        rw [hws]
        unfold eToggleCountResetMS
        unfold eToggleCountResetMS at hlt
        intro hcon
        omega
      obtain ⟨hfired, hcount, hlast⟩ := update_silent { env with now := t } s hnf
      have ihr := ih (update { env with now := t } s).state
        (by rw [hlast]; exact hwf') (by rw [hcount]; exact hc) (by rw [hlast]; exact h64)
      obtain ⟨ih1, ih2, ih3⟩ := ihr
      refine ⟨?_, ?_, ?_⟩
      · simp [runEvents, hfired, ih1]
      · simp only [runEvents, pushCount]
        rw [ih2, hcount]
      · simp only [runEvents, lastPushTime]
        rw [ih3, hlast]

/-- Claim C6: starting with a zero activation counter, a push at `a1`
followed by a well-formed burst (pushes each within 1000 ms of the
previous activation, ticks inside the window firing nothing), then a
tick at least 1000 ms after the last activation, makes the `Update` loop
act on exactly one gesture — carrying the total number of activations —
and leaves the counter at 0. -/
theorem C6_burst (env : TickEnv) (s0 : OLState) (a1 : Nat) (evs : List BEvent) (tf : Nat)
    (h0 : s0.toggleCount = 0) (ha : a1 < 2 ^ 64) (hwf : wfBurst a1 evs)
    (htf : lastPushTime a1 evs + eToggleCountResetMS ≤ tf) (htf64 : tf < 2 ^ 64) :
    (runEvents env s0 (BEvent.push a1 :: (evs ++ [BEvent.tick tf]))).2
      = [1 + pushCount evs]
    ∧ (runEvents env s0 (BEvent.push a1 :: (evs ++ [BEvent.tick tf]))).1.toggleCount = 0 := by
  have hb := buttonPush_activated a1 s0
  have hs1c : (buttonPush a1 .activated s0).toggleCount = 1 := by rw [hb]; simp [h0]
  have hs1l : (buttonPush a1 .activated s0).toggleLastTimeMS = a1 := by rw [hb]
  obtain ⟨hnil, hcnt, hlst⟩ := runEvents_burst_silent env evs (buttonPush a1 .activated s0)
    (by rw [hs1l]; exact hwf) (by rw [hs1c]; exact Nat.one_pos) (by rw [hs1l]; exact ha)
  obtain ⟨hlpge, hlp64⟩ := lastPushTime_bounds evs a1 hwf ha
  have hle_tf : lastPushTime a1 evs ≤ tf := by
    unfold eToggleCountResetMS at htf
    omega
  set s2 := (runEvents env (buttonPush a1 .activated s0) evs).1 with hs2
  have hws : wrapSub tf s2.toggleLastTimeMS = tf - s2.toggleLastTimeMS := by
    rw [hlst, hs1l]
    exact wrapSub_eq tf (lastPushTime a1 evs) hle_tf htf64
  have hfire : eToggleCountResetMS ≤ wrapSub tf s2.toggleLastTimeMS := by
    rw [hws, hlst, hs1l]
    unfold eToggleCountResetMS
    unfold eToggleCountResetMS at htf
    omega
  have hpos : 0 < s2.toggleCount := by
    rw [hcnt, hs1c]
    omega
  obtain ⟨hf, hz⟩ := update_fires { env with now := tf } s2 hfire hpos
  constructor
  · simp only [runEvents]
    rw [runEvents_append]
    rw [hnil, ← hs2]
    simp only [runEvents, hf]
    rw [hcnt, hs1c]
    simp
  · simp only [runEvents]
    rw [runEvents_append]
    rw [← hs2]
    simp only [runEvents]
    exact hz

/-- Witness for `C6_burst`: two activations at 0 ms and 500 ms, then a
tick at 1600 ms, act on exactly one gesture of count 2 and reset the
counter. -/
theorem C6_burst_witness :
    (runEvents env0 state0 [BEvent.push 0, BEvent.push 500, BEvent.tick 1600]).2 = [1 + 1]
    ∧ (runEvents env0 state0 [BEvent.push 0, BEvent.push 500, BEvent.tick 1600]).1.toggleCount
        = 0 :=
  C6_burst env0 state0 0 [BEvent.push 500] 1600 rfl (by norm_num)
    (by simp [wfBurst, eToggleCountResetMS])
    (by simp [lastPushTime, eToggleCountResetMS]) (by norm_num)

end FH
